import Mathlib

/-!
# Verification of the PDF-to-Markdown conversion pipeline

A shallow embedding of the chunking, provider-dispatch, response-assembly and
batch-driver code of the `pdf-to-md-llm` repository
(`pdf_to_markdown.py`, `pdf_to_md_llm/providers.py`), together with theorems
settling the specification's claims about it.

Conventions of the embedding:
* Python lists of strings become `List String`; page texts and chunk texts are
  plain strings.
* The network call made by a provider is an external collaborator: a provider's
  response (stop reason and content) is passed to the embedded function as an
  argument, and the embedding captures how the source handles that response.
* Python functions that can raise are embedded as `Except String α`, the
  error string being the raised exception's message.
-/

/-- Equality of embedded outcomes is decidable, so concrete runs of the
embedded pipeline can be checked by evaluation. -/
instance exceptDecidableEq {ε α : Type} [DecidableEq ε] [DecidableEq α] :
    DecidableEq (Except ε α) := fun x y =>
  match x, y with
  | .ok a, .ok b =>
    if h : a = b then .isTrue (by rw [h]) else .isFalse (fun hc => h (Except.ok.inj hc))
  | .error a, .error b =>
    if h : a = b then .isTrue (by rw [h]) else .isFalse (fun hc => h (Except.error.inj hc))
  | .ok _, .error _ => .isFalse (fun hc => Except.noConfusion hc)
  | .error _, .ok _ => .isFalse (fun hc => Except.noConfusion hc)

/-! ## Chunker

`chunk_pages` in `pdf_to_markdown.py`:

```
chunks = []
for i in range(0, len(pages), pages_per_chunk):
    chunk = "\n\n".join(pages[i:i + pages_per_chunk])
    chunks.append(chunk)
return chunks
```

For a step `k ≥ 1`, `range(0, n, k)` enumerates `0, k, 2k, …` and has exactly
`(n + k - 1) / k` elements (the standard `ceil` formula for Python ranges);
the slice `pages[i:i+k]` is `(pages.drop i).take k`.  `chunkSlices` transcribes
the loop at the level of page groups; `chunk_pages` additionally performs the
`"\n\n".join` exactly as the source does.  Python raises
`ValueError: range() arg 3 must not be zero` when the step is `0`, and for a
negative step `range(0, n, step)` is empty (`0 > n` never holds), so the loop
body never runs and the function returns `[]`.
-/

/-- The grouping `[pages[i:i+k] for i in range(0, len(pages), k)]` performed by
`chunk_pages` (`pdf_to_markdown.py`, lines 58-61), for a positive step `k`. -/
def chunkSlices {α : Type} (k : Nat) (pages : List α) : List (List α) :=
  (List.range ((pages.length + k - 1) / k)).map (fun i => (pages.drop (i * k)).take k)

/-- `chunk_pages` (`pdf_to_markdown.py`, lines 47-62), embedded with Python's
`range` semantics for non-positive steps: step `0` raises `ValueError`, a
negative step yields an empty range, hence an empty chunk list. -/
def chunk_pages (pages : List String) (pages_per_chunk : Int) : Except String (List String) :=
  if pages_per_chunk = 0 then
    .error "ValueError: range() arg 3 must not be zero"
  else if pages_per_chunk < 0 then
    .ok []
  else
    .ok ((chunkSlices pages_per_chunk.toNat pages).map (String.intercalate "\n\n"))

/-! ## Chunk conversion and document assembly

`convert_pdf_to_markdown` (`pdf_to_markdown.py`, lines 136-158):

```
markdown_chunks = []
for i, chunk in enumerate(chunks, 1):
    try:
        markdown = convert_chunk_to_markdown(client, chunk)
        markdown_chunks.append(markdown)
    except Exception as e:
        markdown_chunks.append(f"\n\n<!-- Error converting chunk {i}: {e} -->\n\n")
full_markdown = "\n\n---\n\n".join(markdown_chunks)
header = f"# {filename}\n\n*Converted from PDF using LLM-assisted conversion*\n\n---\n\n"
full_markdown = header + full_markdown
```

The provider call for a chunk is an external collaborator; its outcome is an
`Except String String` (raised exception message, or returned markdown), and
the per-chunk outcomes are the input of the embedded assembly. -/

/-- The inline comment the loop appends for a failed chunk; `i` is the 1-based
chunk ordinal from `enumerate(chunks, 1)`. -/
def error_comment (i : Nat) (e : String) : String :=
  "\n\n<!-- Error converting chunk " ++ toString i ++ ": " ++ e ++ " -->\n\n"

/-- One slot of `markdown_chunks`: the returned markdown on success, the
inline error comment on failure.  `i` is 0-based here; the source's 1-based
ordinal is `i + 1`. -/
def render_chunk (i : Nat) (outcome : Except String String) : String :=
  match outcome with
  | .ok markdown => markdown
  | .error e => error_comment (i + 1) e

/-- The `markdown_chunks` list built by the conversion loop. -/
def markdown_chunks (outcomes : List (Except String String)) : List String :=
  outcomes.enum.map (fun p => render_chunk p.1 p.2)

/-- The fixed separator joining chunk outputs. -/
def chunk_separator : String := "\n\n---\n\n"

/-- The document metadata header prepended to the joined chunks. -/
def document_header (filename : String) : String :=
  "# " ++ filename ++ "\n\n*Converted from PDF using LLM-assisted conversion*\n\n---\n\n"

/-- The final assembled document: header plus separator-join of the chunk
slots, exactly as `convert_pdf_to_markdown` builds it. -/
def full_markdown (filename : String) (outcomes : List (Except String String)) : String :=
  document_header filename ++ String.intercalate chunk_separator (markdown_chunks outcomes)

/-- Number of (possibly overlapping) occurrences of `pat` as a substring of
`s`, counted over the underlying character lists. -/
def countOccurs (pat s : List Char) : Nat :=
  ((List.range (s.length + 1)).filter (fun i => decide ((s.drop i).take pat.length = pat))).length

/-- Rearranging a list by a permutation of its index set. -/
def permuteList {α : Type} (l : List α) (σ : Equiv.Perm (Fin l.length)) : List α :=
  List.ofFn (fun i => l.get (σ i))

/-! ## Provider abstraction (`pdf_to_md_llm/providers.py`)

`AnthropicProvider.convert_to_markdown` (lines 79-109) and
`OpenAIProvider.convert_to_markdown` (lines 212-242) build a fixed prompt,
issue one backend request, and end with

```
return message.content[0].text          # Anthropic
return response.choices[0].message.content   # OpenAI
```

The backend reply is an external collaborator and is passed to the embeddings
as an argument.  Both source methods return the reply's content directly: the
reply's stop/finish reason is never inspected, and `providers.py` defines no
`TruncationError` (the repository's own test
`tests/test_truncation_openai.py` imports `TruncationError` from
`pdf_to_md_llm.providers` and requires truncated responses to raise it). -/

/-- The fields of an Anthropic messages-API reply that
`AnthropicProvider.convert_to_markdown` can observe: the stop reason
(`"end_turn"`, `"max_tokens"`, …) and `content[0].text`. -/
structure AnthropicMessage where
  stop_reason : String
  content0_text : String
deriving DecidableEq

/-- The fields of an OpenAI chat-completions reply that
`OpenAIProvider.convert_to_markdown` can observe: the finish reason
(`"stop"`, `"length"`, …) and `choices[0].message.content`. -/
structure OpenAIResponse where
  finish_reason : String
  message_content : String
deriving DecidableEq

/-- Response handling of `AnthropicProvider.convert_to_markdown`
(`providers.py` line 109): `return message.content[0].text`, with no
inspection of `message.stop_reason` and no error path. -/
def AnthropicProvider_convert_to_markdown (message : AnthropicMessage) : String :=
  message.content0_text

/-- Response handling of `OpenAIProvider.convert_to_markdown`
(`providers.py` line 242): `return response.choices[0].message.content`, with
no inspection of `response.choices[0].finish_reason` and no error path. -/
def OpenAIProvider_convert_to_markdown (response : OpenAIResponse) : String :=
  response.message_content

/-- One page record handed to vision-mode conversion: extracted text plus a
base64-encoded rendered image (`providers.py` lines 27-45). -/
structure VisionPage where
  page_num : Nat
  text : String
  image_base64 : String

/-- A concrete provider as the abstract base class `AIProvider` sees it: its
class name and, if the backend/model combination supports multimodal input, an
overriding implementation of `convert_to_markdown_vision`.  `none` means the
subclass does not override the method, so a call reaches the base-class body
(`providers.py` lines 43-45), which raises
`NotImplementedError(f"{self.__class__.__name__} does not support vision mode")`
— the `UnsupportedMode` failure of the specification's taxonomy. -/
structure AIProviderImpl where
  className : String
  convert_vision_override : Option (List VisionPage → Nat → String)

/-- Dispatch of `convert_to_markdown_vision` through the `AIProvider` class
hierarchy: an overriding implementation is called; otherwise the base-class
body raises. -/
def convert_to_markdown_vision (p : AIProviderImpl) (pages : List VisionPage)
    (max_tokens : Nat) : Except String String :=
  match p.convert_vision_override with
  | some impl => .ok (impl pages max_tokens)
  | none => .error (p.className ++ " does not support vision mode")

/-- Python's `str.lower()` on the ASCII range, as used by `get_provider`
(`providers.py` line 341); `Char.toLower` maps `A`-`Z` to `a`-`z` and fixes
everything else. -/
def str_lower (s : String) : String :=
  String.mk (s.data.map Char.toLower)

/-- The provider value `get_provider` returns: which concrete class was
constructed, with the credential and model it was constructed with.
Constructing a provider object creates a backend client handle but performs no
network request; an `error` result means `get_provider` raised `ValueError`
before any provider (hence any backend client) existed. -/
inductive AIProviderChoice where
  | anthropic (api_key : Option String) (model : String)
  | openai (api_key : Option String) (model : String)
deriving DecidableEq

/-- `api_key or os.environ.get(...)` in the provider constructors
(`providers.py` lines 75, 208): an explicit truthy (non-empty) key wins,
otherwise the environment variable. -/
def resolve_api_key (api_key env_key : Option String) : Option String :=
  match api_key with
  | some key => if key = "" then env_key else some key
  | none => env_key

/-- `if model: kwargs["model"] = model` (`providers.py` lines 345-346,
350-351): a falsy model (absent or empty) falls back to the class default. -/
def effective_model (model : Option String) (default_model : String) : String :=
  match model with
  | some m => if m = "" then default_model else m
  | none => default_model

/-- `get_provider` (`providers.py` lines 322-357): lowercase the name, then
dispatch to `AnthropicProvider` or `OpenAIProvider`, else raise `ValueError`.
The environment variables `ANTHROPIC_API_KEY`/`OPENAI_API_KEY` consulted by
the constructors are passed as explicit arguments. -/
def get_provider (provider_name : String) (api_key : Option String)
    (model : Option String) (anthropic_env openai_env : Option String) :
    Except String AIProviderChoice :=
  let name := str_lower provider_name
  if name = "anthropic" then
    .ok (.anthropic (resolve_api_key api_key anthropic_env)
      (effective_model model "claude-sonnet-4-20250514"))
  else if name = "openai" then
    .ok (.openai (resolve_api_key api_key openai_env)
      (effective_model model "gpt-4o"))
  else
    .error ("Unknown provider: " ++ name ++ ". Supported providers: anthropic, openai")

/-! ## Batch driver (`pdf_to_markdown.py`, lines 171-211)

`batch_convert` fixes the discovered file list, then runs

```
for i, pdf_file in enumerate(pdf_files, 1):
    print(f"\n[{i}/{len(pdf_files)}]")
    ...
    try:
        convert_pdf_to_markdown(str(pdf_file), str(output_file))
    except Exception as e:
        print(f"✗ Failed: {e}")
print(f"\n✓ Batch conversion complete!")
print(f"  Output directory: {output_path}")
```

The embedding abstracts file discovery and the per-file conversion (given as
an outcome function) and records the sequence of printed lines, which is the
observable behaviour of the driver: the per-file progress marker printed
before each attempt, the failure line printed when an exception is caught,
and the two lines printed after the loop. -/

/-- The lines printed for the file at 0-based position `i` of the fixed list:
the progress marker, then a failure line when the conversion raised (the
exception is caught; the loop continues). -/
def per_file_log (n i : Nat) (outcome : Except String Unit) : List String :=
  ("\n[" ++ toString (i + 1) ++ "/" ++ toString n ++ "]") ::
    (match outcome with
     | .ok _ => []
     | .error e => ["✗ Failed: " ++ e])

/-- The per-file loop of `batch_convert`, starting at 0-based position `i`. -/
def batch_loop (n : Nat) (convert : String → Except String Unit) :
    Nat → List String → List String
  | _, [] => []
  | i, f :: rest => per_file_log n i (convert f) ++ batch_loop n convert (i + 1) rest

/-- The two lines `batch_convert` prints after the loop.  They are a constant
of the output directory alone: the source keeps no counters, so nothing about
attempted, succeeded or failed files can appear here. -/
def batch_summary (output_path : String) : List String :=
  ["\n✓ Batch conversion complete!", "  Output directory: " ++ output_path]

/-- The full printed output of `batch_convert` over a fixed discovered file
list: the no-files message when the list is empty, else the found-count line,
the per-file loop, and the final summary. -/
def batch_convert_log (input_folder output_path : String) (pdf_files : List String)
    (convert : String → Except String Unit) : List String :=
  if pdf_files.isEmpty then
    ["No PDF files found in " ++ input_folder]
  else
    ("Found " ++ toString pdf_files.length ++ " PDF files to convert\n") ::
      batch_loop pdf_files.length convert 0 pdf_files ++ batch_summary output_path

/-- Observable of a batch run: how many files of the fixed list fail under a
given per-file outcome assignment.  The source keeps no such counter — this is
the quantity its final summary would have to report. -/
def failed_count (files : List String) (convert : String → Except String Unit) : Nat :=
  (files.filter (fun f => !(convert f).isOk)).length

/-! ## Helper lemmas about the embedded definitions -/

theorem chunkSlices_length {α : Type} (k : Nat) (pages : List α) :
    (chunkSlices k pages).length = (pages.length + k - 1) / k := by
  simp [chunkSlices]

theorem chunkSlices_length_eq {α : Type} (k : Nat) (hk : 0 < k) (pages : List α)
    (hp : pages ≠ []) :
    (chunkSlices k pages).length = (pages.length - 1) / k + 1 := by
  rw [chunkSlices_length]
  have h1 : 0 < pages.length := List.length_pos.mpr hp
  have h2 : pages.length + k - 1 = (pages.length - 1) + k := by omega
  rw [h2, Nat.add_div_right _ hk]

theorem chunkSlices_getElem? {α : Type} (k : Nat) (pages : List α) (i : Nat) :
    (chunkSlices k pages)[i]? =
      if i < (pages.length + k - 1) / k then some ((pages.drop (i * k)).take k)
      else none := by
  simp only [chunkSlices, List.getElem?_map]
  by_cases h : i < (pages.length + k - 1) / k
  · simp [h]
  · simp [h]
    omega

/-- Every index strictly below `⌊n/k⌋` addresses a full chunk of `k` pages. -/
theorem chunkSlices_full_chunk {α : Type} (k : Nat) (hk : 0 < k) (pages : List α)
    (i : Nat) (hi : i < pages.length / k) :
    (chunkSlices k pages)[i]? = some ((pages.drop (i * k)).take k) ∧
      ((pages.drop (i * k)).take k).length = k := by
  have hsm : (i + 1) * k = i * k + k := by ring
  have hik : (i + 1) * k ≤ pages.length := by
    calc (i + 1) * k ≤ (pages.length / k) * k := Nat.mul_le_mul_right k hi
    _ ≤ pages.length := Nat.div_mul_le_self _ _
  constructor
  · rw [chunkSlices_getElem?]
    have h4 : pages.length / k ≤ (pages.length + k - 1) / k :=
      Nat.div_le_div_right (by omega)
    have : i < (pages.length + k - 1) / k := by omega
    simp [this]
  · rw [List.length_take, List.length_drop]
    omega

/-- The chunks, concatenated back together, are exactly the original pages:
every page lands in exactly one chunk and the original order is kept. -/
theorem chunkSlices_flatten {α : Type} (k : Nat) (hk : 0 < k) (pages : List α) :
    (chunkSlices k pages).flatten = pages := by
  have key : ∀ m : Nat,
      ((List.range m).map (fun i => (pages.drop (i * k)).take k)).flatten =
        pages.take (m * k) := by
    intro m
    induction m with
    | zero => simp
    | succ m ih =>
      rw [List.range_succ, List.map_append, List.flatten_append]
      simp only [List.map_cons, List.map_nil, List.flatten_cons, List.flatten_nil,
        List.append_nil]
      rw [ih, ← List.take_add]
      congr 1
      rw [Nat.succ_mul]
  unfold chunkSlices
  rw [key]
  apply List.take_of_length_le
  have h1 := Nat.div_add_mod (pages.length + k - 1) k
  have h2 := Nat.mod_lt (pages.length + k - 1) hk
  have h3 : (pages.length + k - 1) / k * k = k * ((pages.length + k - 1) / k) := by
    ring
  omega

/-- The final chunk holds `n mod k` pages, or a full `k` when `k` divides the
page count. -/
theorem chunkSlices_last {α : Type} (k : Nat) (hk : 0 < k) (pages : List α)
    (hp : pages ≠ []) :
    (chunkSlices k pages).getLast?.map List.length =
      some (if pages.length % k = 0 then k else pages.length % k) := by
  have hlen : 0 < pages.length := List.length_pos.mpr hp
  have hc : (pages.length + k - 1) / k = (pages.length - 1) / k + 1 := by
    have h2 : pages.length + k - 1 = (pages.length - 1) + k := by omega
    rw [h2, Nat.add_div_right _ hk]
  rw [List.getLast?_eq_getElem?, chunkSlices_length, hc, Nat.add_sub_cancel,
    chunkSlices_getElem?, hc, if_pos (Nat.lt_succ_self _)]
  have h1 := Nat.div_add_mod (pages.length - 1) k
  have h2 := Nat.mod_lt (pages.length - 1) hk
  have h3 : k * ((pages.length - 1) / k) = (pages.length - 1) / k * k := by ring
  have hn : pages.length = (pages.length - 1) / k * k + ((pages.length - 1) % k + 1) := by
    omega
  have hmod : pages.length % k = ((pages.length - 1) % k + 1) % k := by
    conv_lhs => rw [hn, Nat.add_comm]
    exact Nat.add_mul_mod_self_right _ _ _
  simp only [Option.map_some', List.length_take, List.length_drop, Option.some.injEq]
  rcases Nat.lt_or_ge ((pages.length - 1) % k + 1) k with hcase | hcase
  · rw [hmod, Nat.mod_eq_of_lt hcase, if_neg (by omega)]
    omega
  · have hek : (pages.length - 1) % k + 1 = k := by omega
    rw [hmod, hek, Nat.mod_self, if_pos rfl]
    omega

theorem markdown_chunks_length (outcomes : List (Except String String)) :
    (markdown_chunks outcomes).length = outcomes.length := by
  simp [markdown_chunks]

theorem markdown_chunks_getElem? (outcomes : List (Except String String)) (i : Nat) :
    (markdown_chunks outcomes)[i]? = (outcomes[i]?).map (render_chunk i) := by
  simp only [markdown_chunks, List.getElem?_map, List.getElem?_enum]
  cases outcomes[i]? <;> rfl

theorem char_toLower_toNat_of_upper (c : Char)
    (h : 65 ≤ c.toNat ∧ c.toNat ≤ 90) : (Char.toLower c).toNat = c.toNat + 32 := by
  unfold Char.toLower
  rw [if_pos h]
  have hv : (c.toNat + 32).isValidChar := Or.inl (by omega)
  simp only [Char.ofNat, hv, dif_pos]
  rfl

theorem char_toLower_of_not_upper (c : Char)
    (h : ¬(65 ≤ c.toNat ∧ c.toNat ≤ 90)) : Char.toLower c = c := by
  unfold Char.toLower
  rw [if_neg h]

theorem char_toLower_idem (c : Char) :
    (Char.toLower c).toLower = Char.toLower c := by
  by_cases h : 65 ≤ c.toNat ∧ c.toNat ≤ 90
  · have ht := char_toLower_toNat_of_upper c h
    apply char_toLower_of_not_upper
    omega
  · rw [char_toLower_of_not_upper c h]
    exact char_toLower_of_not_upper c h

theorem str_lower_idem (s : String) : str_lower (str_lower s) = str_lower s := by
  show String.mk ((s.data.map Char.toLower).map Char.toLower) = _
  rw [List.map_map]
  congr 1
  apply List.map_congr_left
  intro c _
  simp only [Function.comp_apply]
  exact char_toLower_idem c

theorem batch_loop_marker (n : Nat) (convert : String → Except String Unit)
    (files : List String) : ∀ i j, j < files.length →
    ("\n[" ++ toString (i + j + 1) ++ "/" ++ toString n ++ "]") ∈
      batch_loop n convert i files := by
  induction files with
  | nil => intro i j hj; simp at hj
  | cons f rest ih =>
    intro i j hj
    cases j with
    | zero =>
      simp only [batch_loop, per_file_log, Nat.add_zero]
      exact List.mem_append_left _ (List.mem_cons_self _ _)
    | succ j' =>
      have hj' : j' < rest.length := by simpa using hj
      have := ih (i + 1) j' hj'
      have harith : i + 1 + j' + 1 = i + (j' + 1) + 1 := by omega
      rw [harith] at this
      simp only [batch_loop]
      exact List.mem_append_right _ this

/-! ## The specification's claims -/

/-- **C1** (code bug).  The claim says a provider response whose stop/finish
reason indicates output-length exhaustion makes `convert_to_markdown` fail
with a `TruncationError` carrying the attempted `max_tokens`, for both
backends, and never return the truncated Markdown as a success.  The code in
`src/pdf_to_md_llm/providers.py` contradicts this — and contradicts the
repository's own test `tests/test_truncation_openai.py`, which imports
`TruncationError` from `pdf_to_md_llm.providers` (no such name is defined
there) and requires truncation to raise it.  This theorem evaluates the
embedded response handling at the failing inputs: an Anthropic reply with
`stop_reason = "max_tokens"` and an OpenAI reply with
`finish_reason = "length"`, both carrying truncated text.  Both calls return
the truncated text as an ordinary success. -/
theorem c1_truncated_response_returned_as_success :
    AnthropicProvider_convert_to_markdown
        { stop_reason := "max_tokens", content0_text := "# Truncated docu" } =
      "# Truncated docu" ∧
    OpenAIProvider_convert_to_markdown
        { finish_reason := "length", message_content := "# Truncated docu" } =
      "# Truncated docu" :=
  ⟨rfl, rfl⟩

/-- **C2** (confirmed).  For every page list and every chunk size `k ≥ 1`:
chunking yields exactly `⌈n/k⌉ = (n + k - 1) / k` chunks; every chunk indexed
below `⌊n/k⌋` holds exactly `k` pages; the final chunk holds `n mod k` pages
(`k` when `k` divides `n`); flattening the chunks returns the page list
itself, so every page lies in exactly one chunk and in original order; and
`chunk_pages` succeeds with exactly the `"\n\n"`-joins of these chunks. -/
theorem c2_chunk_partition (pages : List String) (k : Nat) (hk : 1 ≤ k) :
    (chunkSlices k pages).length = (pages.length + k - 1) / k ∧
    (∀ i, i < pages.length / k →
      (chunkSlices k pages)[i]? = some ((pages.drop (i * k)).take k) ∧
        ((pages.drop (i * k)).take k).length = k) ∧
    (pages ≠ [] →
      (chunkSlices k pages).getLast?.map List.length =
        some (if pages.length % k = 0 then k else pages.length % k)) ∧
    (chunkSlices k pages).flatten = pages ∧
    chunk_pages pages (k : Int) =
      .ok ((chunkSlices k pages).map (String.intercalate "\n\n")) := by
  have hk0 : 0 < k := hk
  refine ⟨chunkSlices_length k pages,
    fun i hi => chunkSlices_full_chunk k hk0 pages i hi,
    fun hp => chunkSlices_last k hk0 pages hp,
    chunkSlices_flatten k hk0 pages, ?_⟩
  have h1 : ¬((k : Int) = 0) := by omega
  have h2 : ¬((k : Int) < 0) := by omega
  have h3 : (k : Int).toNat = k := by omega
  rw [chunk_pages, if_neg h1, if_neg h2, h3]

/-- Witness for C2 at three pages and chunk size two. -/
theorem c2_chunk_partition_witness :
    1 ≤ 2 ∧
    ((chunkSlices 2 ["a", "b", "c"]).length = (["a", "b", "c"].length + 2 - 1) / 2 ∧
     (∀ i, i < ["a", "b", "c"].length / 2 →
       (chunkSlices 2 ["a", "b", "c"])[i]? =
           some ((["a", "b", "c"].drop (i * 2)).take 2) ∧
         ((["a", "b", "c"].drop (i * 2)).take 2).length = 2) ∧
     (["a", "b", "c"] ≠ [] →
       (chunkSlices 2 ["a", "b", "c"]).getLast?.map List.length =
         some (if ["a", "b", "c"].length % 2 = 0 then 2 else ["a", "b", "c"].length % 2)) ∧
     (chunkSlices 2 ["a", "b", "c"]).flatten = ["a", "b", "c"] ∧
     chunk_pages ["a", "b", "c"] (2 : Int) =
       .ok ((chunkSlices 2 ["a", "b", "c"]).map (String.intercalate "\n\n"))) :=
  ⟨by decide, c2_chunk_partition ["a", "b", "c"] 2 (by decide)⟩

/-- **C3 counterexample.**  The claim says chunking any non-empty page list
with any chunk size `k ≤ 0` fails and never returns a chunk sequence.  At the
concrete input `pages = ["page one"]`, `k = -1`, the source's loop
`for i in range(0, 1, -1)` iterates zero times (a negative-step range from 0
up to a positive stop is empty), so `chunk_pages` returns the empty chunk
list — a successful return, not an error of any kind. -/
theorem c3_counterexample :
    chunk_pages ["page one"] (-1) = .ok [] := by
  decide

/-- **C3** (corrected).  What the code actually does for non-positive chunk
sizes: `k = 0` raises (Python `ValueError` from `range`, the code's only
realization of `InvalidConfiguration`), while every negative `k` silently
returns the empty chunk sequence for any page list. -/
theorem c3_nonpositive_chunk_size (pages : List String) (k : Int) :
    (k = 0 → chunk_pages pages k = .error "ValueError: range() arg 3 must not be zero") ∧
    (k < 0 → chunk_pages pages k = .ok []) := by
  constructor
  · intro h
    rw [chunk_pages, if_pos h]
  · intro h
    have h0 : ¬(k = 0) := by omega
    rw [chunk_pages, if_neg h0, if_pos h]

/-- Witness for the corrected C3 at a one-page list with `k = 0` and
`k = -1`. -/
theorem c3_nonpositive_chunk_size_witness :
    ((0 : Int) = 0 ∧
      chunk_pages ["page one"] 0 = .error "ValueError: range() arg 3 must not be zero") ∧
    ((-1 : Int) < 0 ∧ chunk_pages ["page one"] (-1) = .ok []) :=
  ⟨⟨rfl, (c3_nonpositive_chunk_size ["page one"] 0).1 rfl⟩,
   ⟨by decide, (c3_nonpositive_chunk_size ["page one"] (-1)).2 (by decide)⟩⟩

/-- **C4** (confirmed).  A failing provider call for one chunk does not abort
the document: the assembly is total, the slot of the failed chunk is the
inline human-visible comment naming its 1-based ordinal and the error
message, every successful chunk's markdown occupies its own slot unchanged,
and the number and order of slots equals the number and order of input
chunks (slot `i` of the output always comes from outcome `i`). -/
theorem c4_failed_chunk_isolated (outcomes : List (Except String String)) (j : Nat)
    (e : String) (hfail : outcomes[j]? = some (.error e)) :
    (markdown_chunks outcomes).length = outcomes.length ∧
    (markdown_chunks outcomes)[j]? =
      some ("\n\n<!-- Error converting chunk " ++ toString (j + 1) ++ ": " ++ e
        ++ " -->\n\n") ∧
    (∀ (i : Nat) (md : String), outcomes[i]? = some (Except.ok md) →
      (markdown_chunks outcomes)[i]? = some md) := by
  refine ⟨markdown_chunks_length outcomes, ?_, ?_⟩
  · rw [markdown_chunks_getElem?, hfail]
    rfl
  · intro i md h
    rw [markdown_chunks_getElem?, h]
    rfl

/-- Witness for C4: three chunks whose middle provider call fails. -/
theorem c4_failed_chunk_isolated_witness :
    ([Except.ok "# Part one", Except.error "rate limited",
        Except.ok "# Part two"][1]? = some (Except.error "rate limited")) ∧
    ((markdown_chunks [Except.ok "# Part one", Except.error "rate limited",
          Except.ok "# Part two"]).length =
        [Except.ok "# Part one", Except.error "rate limited",
          Except.ok "# Part two"].length ∧
      (markdown_chunks [Except.ok "# Part one", Except.error "rate limited",
          Except.ok "# Part two"])[1]? =
        some ("\n\n<!-- Error converting chunk " ++ toString (1 + 1) ++ ": "
          ++ "rate limited" ++ " -->\n\n") ∧
      (∀ (i : Nat) (md : String), [Except.ok "# Part one", Except.error "rate limited",
          Except.ok "# Part two"][i]? = some (Except.ok md) →
        (markdown_chunks [Except.ok "# Part one", Except.error "rate limited",
          Except.ok "# Part two"])[i]? = some md)) :=
  ⟨rfl, c4_failed_chunk_isolated _ 1 "rate limited" rfl⟩

/-- **C5 counterexample.**  The claim says the final summary after the batch
loop reports the counts of attempted, succeeded and failed files.  The code
after the loop prints two fixed lines that depend only on the output
directory: a run of two files in which both conversions fail (2 attempted,
0 succeeded, 2 failed) ends with exactly the same summary lines as a run in
which both succeed (2 attempted, 2 succeeded, 0 failed), so the summary
cannot report any of those counts. -/
theorem c5_counterexample :
    failed_count ["a.pdf", "b.pdf"] (fun _ => Except.error "unreadable PDF") = 2 ∧
    failed_count ["a.pdf", "b.pdf"] (fun _ => Except.ok ()) = 0 ∧
    (batch_convert_log "pdfs" "out" ["a.pdf", "b.pdf"]
        (fun _ => Except.error "unreadable PDF")).drop 5 =
      (batch_convert_log "pdfs" "out" ["a.pdf", "b.pdf"]
        (fun _ => Except.ok ())).drop 3 ∧
    (batch_convert_log "pdfs" "out" ["a.pdf", "b.pdf"]
        (fun _ => Except.error "unreadable PDF")).drop 5 = batch_summary "out" := by
  decide

/-- **C5** (corrected).  What the batch driver does guarantee: under any
assignment of per-file outcomes — in particular when some files fail fatally —
every file of the fixed list is still attempted (its progress marker is
printed), failures being caught inside the loop, and the log always ends with
the fixed completion summary.  That summary names the output directory but no
counts. -/
theorem c5_batch_isolation (input_folder output_path : String) (files : List String)
    (convert : String → Except String Unit) (j : Nat) (hj : j < files.length) :
    ("\n[" ++ toString (j + 1) ++ "/" ++ toString files.length ++ "]") ∈
      batch_convert_log input_folder output_path files convert ∧
    ∃ loop_lines,
      batch_convert_log input_folder output_path files convert =
        ("Found " ++ toString files.length ++ " PDF files to convert\n") ::
          loop_lines ++ batch_summary output_path := by
  have hne : ¬files.isEmpty := by
    cases files with
    | nil => simp at hj
    | cons f rest => simp
  constructor
  · rw [batch_convert_log, if_neg hne]
    have hm := batch_loop_marker files.length convert files 0 j hj
    have h0 : (0 : Nat) + j = j := Nat.zero_add j
    rw [h0] at hm
    exact List.mem_cons_of_mem _ (List.mem_append_left _ hm)
  · exact ⟨batch_loop files.length convert 0 files,
      by rw [batch_convert_log, if_neg hne]⟩

/-- Witness for the corrected C5: two files, the first of which fails. -/
theorem c5_batch_isolation_witness :
    1 < (["a.pdf", "b.pdf"] : List String).length ∧
    (("\n[" ++ toString (1 + 1) ++ "/"
          ++ toString (["a.pdf", "b.pdf"] : List String).length ++ "]") ∈
        batch_convert_log "pdfs" "out" ["a.pdf", "b.pdf"]
          (fun f => if f = "a.pdf" then Except.error "unreadable PDF"
            else Except.ok ()) ∧
      ∃ loop_lines,
        batch_convert_log "pdfs" "out" ["a.pdf", "b.pdf"]
            (fun f => if f = "a.pdf" then Except.error "unreadable PDF"
              else Except.ok ()) =
          ("Found " ++ toString (["a.pdf", "b.pdf"] : List String).length
              ++ " PDF files to convert\n") ::
            loop_lines ++ batch_summary "out") :=
  ⟨by decide, c5_batch_isolation "pdfs" "out" ["a.pdf", "b.pdf"]
    (fun f => if f = "a.pdf" then Except.error "unreadable PDF" else Except.ok ())
    1 (by decide)⟩

/-- **C6 counterexample.**  The claim says a 12-page input at 5 pages per
chunk yields 3 provider calls (chunks of 5, 5, 2 pages) and an assembled
document containing exactly 2 occurrences of the separator delimiter.  The
chunking part holds, but the document contains **3** occurrences of the
delimiter string `"\n\n---\n\n"`: the fixed header ends with the same
horizontal-rule delimiter before the first chunk, and the two joins follow.
Evaluated here at a concrete 12-page run whose three chunk conversions all
succeed with outputs free of the delimiter. -/
theorem c6_counterexample :
    (chunkSlices 5 ["p1", "p2", "p3", "p4", "p5", "p6", "p7", "p8", "p9", "p10",
        "p11", "p12"]).map List.length = [5, 5, 2] ∧
    countOccurs chunk_separator.data
      (full_markdown "doc" [Except.ok "m1", Except.ok "m2", Except.ok "m3"]).data = 3 ∧
    countOccurs chunk_separator.data
      (full_markdown "doc" [Except.ok "m1", Except.ok "m2", Except.ok "m3"]).data ≠ 2 := by
  decide

/-- **C6** (corrected).  For every 12-page input at 5 pages per chunk the
pipeline issues exactly 3 provider calls, on chunks of 5, 5 and 2 pages; the
chunk outputs are joined by exactly 2 separator occurrences, but the
assembled document carries 3 occurrences of the delimiter string, the header
contributing one (counts evaluated at a succeeding concrete run whose chunk
outputs do not contain the delimiter). -/
theorem c6_twelve_pages (pages : List String) (h12 : pages.length = 12) :
    (chunkSlices 5 pages).length = 3 ∧
    (chunkSlices 5 pages).map List.length = [5, 5, 2] ∧
    countOccurs chunk_separator.data
      (String.intercalate chunk_separator
        (markdown_chunks [Except.ok "m1", Except.ok "m2", Except.ok "m3"])).data = 2 ∧
    countOccurs chunk_separator.data
      (full_markdown "doc" [Except.ok "m1", Except.ok "m2", Except.ok "m3"]).data = 3 := by
  have hlen : (chunkSlices 5 pages).length = 3 := by rw [chunkSlices_length, h12]
  refine ⟨hlen, ?_, by decide, by decide⟩
  apply List.ext_getElem?
  intro i
  rw [List.getElem?_map, chunkSlices_getElem?, h12]
  match i with
  | 0 => simp [List.length_take, List.length_drop, h12]
  | 1 => simp [List.length_take, List.length_drop, h12]
  | 2 => simp [List.length_take, List.length_drop, h12]
  | (n + 3) => simp

/-- Witness for the corrected C6 at a concrete 12-page list. -/
theorem c6_twelve_pages_witness :
    (["p1", "p2", "p3", "p4", "p5", "p6", "p7", "p8", "p9", "p10", "p11",
        "p12"] : List String).length = 12 ∧
    ((chunkSlices 5 ["p1", "p2", "p3", "p4", "p5", "p6", "p7", "p8", "p9", "p10",
        "p11", "p12"]).length = 3 ∧
     (chunkSlices 5 ["p1", "p2", "p3", "p4", "p5", "p6", "p7", "p8", "p9", "p10",
        "p11", "p12"]).map List.length = [5, 5, 2] ∧
     countOccurs chunk_separator.data
       (String.intercalate chunk_separator
         (markdown_chunks [Except.ok "m1", Except.ok "m2", Except.ok "m3"])).data = 2 ∧
     countOccurs chunk_separator.data
       (full_markdown "doc" [Except.ok "m1", Except.ok "m2", Except.ok "m3"]).data = 3) :=
  ⟨rfl, c6_twelve_pages _ rfl⟩

/-- **C7** (confirmed).  A vision-mode request against a provider that does
not override `convert_to_markdown_vision` — a backend/model combination
without multimodal support — reaches the `AIProvider` base-class body and
fails with the `NotImplementedError` message
`"<class name> does not support vision mode"` (the code's realization of
`UnsupportedMode`); it never returns any markdown, so no silent text-only
fallback can occur. -/
theorem c7_vision_unsupported_fails (p : AIProviderImpl) (pages : List VisionPage)
    (max_tokens : Nat) (h : p.convert_vision_override = none) :
    convert_to_markdown_vision p pages max_tokens =
      .error (p.className ++ " does not support vision mode") ∧
    ∀ markdown, convert_to_markdown_vision p pages max_tokens ≠ .ok markdown := by
  constructor
  · rw [convert_to_markdown_vision, h]
  · intro markdown hc
    rw [convert_to_markdown_vision, h] at hc
    exact Except.noConfusion hc

/-- Witness for C7: a provider without a vision override. -/
theorem c7_vision_unsupported_fails_witness :
    (AIProviderImpl.mk "TextOnlyProvider" none).convert_vision_override = none ∧
    (convert_to_markdown_vision (AIProviderImpl.mk "TextOnlyProvider" none) [] 4000 =
        .error ((AIProviderImpl.mk "TextOnlyProvider" none).className
          ++ " does not support vision mode") ∧
      ∀ markdown, convert_to_markdown_vision
        (AIProviderImpl.mk "TextOnlyProvider" none) [] 4000 ≠ .ok markdown) :=
  ⟨rfl, c7_vision_unsupported_fails (AIProviderImpl.mk "TextOnlyProvider" none) [] 4000 rfl⟩

/-- **C8** (confirmed).  A provider name whose lowercased form is neither
`"anthropic"` nor `"openai"` makes `get_provider` raise
`ValueError: Unknown provider: ...` — the `UnknownProviderError` of the
specification — and no provider value is ever constructed, so no backend
client exists and no network activity can have taken place. -/
theorem c8_unknown_provider_rejected (provider_name : String)
    (api_key model anthropic_env openai_env : Option String)
    (h1 : str_lower provider_name ≠ "anthropic")
    (h2 : str_lower provider_name ≠ "openai") :
    get_provider provider_name api_key model anthropic_env openai_env =
      .error ("Unknown provider: " ++ str_lower provider_name
        ++ ". Supported providers: anthropic, openai") ∧
    ∀ p, get_provider provider_name api_key model anthropic_env openai_env ≠
      .ok p := by
  constructor
  · rw [get_provider]
    simp only [if_neg h1, if_neg h2]
  · intro p hc
    rw [get_provider] at hc
    simp only [if_neg h1, if_neg h2] at hc
    exact Except.noConfusion hc

/-- Witness for C8 at the unrecognized provider name `"gemini"`. -/
theorem c8_unknown_provider_rejected_witness :
    str_lower "gemini" ≠ "anthropic" ∧ str_lower "gemini" ≠ "openai" ∧
    (get_provider "gemini" none none none none =
        .error ("Unknown provider: " ++ str_lower "gemini"
          ++ ". Supported providers: anthropic, openai") ∧
      ∀ p, get_provider "gemini" none none none none ≠ .ok p) :=
  ⟨by decide, by decide,
    c8_unknown_provider_rejected "gemini" none none none none (by decide) (by decide)⟩

/-- **C9 counterexample.**  The claim says every non-identity permutation of
the ConversionResult sequence changes the assembled Document.  Take two
chunks that both produced the markdown `"x"` and swap them: the swap is not
the identity permutation, yet the rearranged sequence — and hence the
assembled document — is unchanged. -/
theorem c9_counterexample :
    Equiv.swap
        (⟨0, by decide⟩ :
          Fin ([Except.ok "x", Except.ok "x"] : List (Except String String)).length)
        ⟨1, by decide⟩ ≠ Equiv.refl _ ∧
    full_markdown "doc"
        (permuteList [Except.ok "x", Except.ok "x"]
          (Equiv.swap ⟨0, by decide⟩ ⟨1, by decide⟩)) =
      full_markdown "doc" [Except.ok "x", Except.ok "x"] := by
  constructor
  · intro h
    have h0 := congrArg (fun e => (e : Equiv.Perm (Fin _)) ⟨0, by decide⟩) h
    simp only [Equiv.refl_apply] at h0
    rw [Equiv.swap_apply_left] at h0
    exact absurd h0 (by decide)
  · decide

/-- **C9** (corrected).  Assembly performs no deduplication or sorting — it is
the order-sensitive separator-join of the rendered results — so there exist
sequences that a non-identity permutation maps to a different Document:
swapping two chunks with distinct markdown changes the output.  (But a
non-identity permutation fixing the rendered sequence, as with duplicates,
leaves the Document unchanged, so the universally quantified claim fails.) -/
theorem c9_assembly_order_sensitive :
    Equiv.swap
        (⟨0, by decide⟩ :
          Fin ([Except.ok "A", Except.ok "B"] : List (Except String String)).length)
        ⟨1, by decide⟩ ≠ Equiv.refl _ ∧
    full_markdown "doc"
        (permuteList [Except.ok "A", Except.ok "B"]
          (Equiv.swap ⟨0, by decide⟩ ⟨1, by decide⟩)) ≠
      full_markdown "doc" [Except.ok "A", Except.ok "B"] := by
  constructor
  · intro h
    have h0 := congrArg (fun e => (e : Equiv.Perm (Fin _)) ⟨0, by decide⟩) h
    simp only [Equiv.refl_apply] at h0
    rw [Equiv.swap_apply_left] at h0
    exact absurd h0 (by decide)
  · decide

/-- **C10** (confirmed).  Provider selection is case-insensitive: because
`get_provider` first lowercases its argument and `str_lower` is idempotent,
selecting with any name `s` gives exactly the same result — same constructed
backend class with the same credential and model on success, same raised
`ValueError` on failure — as selecting with the lowercased form of `s`. -/
theorem c10_provider_selection_case_insensitive (provider_name : String)
    (api_key model anthropic_env openai_env : Option String) :
    get_provider provider_name api_key model anthropic_env openai_env =
      get_provider (str_lower provider_name) api_key model anthropic_env openai_env := by
  rw [get_provider, get_provider, str_lower_idem]
